import Mathlib

/-!
Verification of the connection layer of multiprocessing_on_dill
(src/multiprocessing_on_dill/connection.py): length-prefixed framing,
connection capability flags and lifecycle, the challenge-response
authentication handshake, Pipe construction, and the multiplexed wait
primitive.

Bytes are modelled as lists of naturals; a stream of bytes coming from the
peer is the list of all bytes the peer wrote before closing its end, so a
read past the end of the list corresponds to reading at end-of-stream.
-/

abbrev Bytes := List Nat

/-- BUFSIZE constant of connection.py (unused by framing proper). -/
def BUFSIZE : Nat := 8192

/-- MESSAGE_LENGTH = 20, the nonce length used by deliver_challenge. -/
def MESSAGE_LENGTH : Nat := 20

/-- CHALLENGE = the byte string of the challenge tag in connection.py. -/
def CHALLENGE : Bytes := [35, 67, 72, 65, 76, 76, 69, 78, 71, 69, 35]

/-- WELCOME = the byte string of the welcome marker in connection.py. -/
def WELCOME : Bytes := [35, 87, 69, 76, 67, 79, 77, 69, 35]

/-- FAILURE = the byte string of the failure marker in connection.py. -/
def FAILURE : Bytes := [35, 70, 65, 73, 76, 85, 82, 69, 35]

/-- Errors raised by the connection layer, one constructor per distinct
Python exception site in connection.py. -/
inductive ConnError where
  | invalidHandle
  | invalidCapability
  | closedHandle
  | notReadable
  | notWritable
  | negativeOffset
  | negativeSize
  | negativeMaxlength
  | offsetTooLarge
  | bufTooSmallForOffset
  | bufTooSmallForOffsetSize
  | badMessageLength
  | eofError
  | truncatedMessage
  | structError
  | bufferTooShort (payload : Bytes)
  | badChallengeTag
  | authenticationFailed
  | alreadyRegistered
  deriving DecidableEq, Repr

/-- State of a _ConnectionBase object: the stored handle (None once
closed) and the readable/writable capability flags. -/
structure Conn where
  handle : Option Int
  readable : Bool
  writable : Bool
  deriving DecidableEq, Repr

/-- Models _ConnectionBase.__init__: rejects a negative handle and the
all-false capability combination. -/
def connectionInit (handle : Int) (readable writable : Bool) :
    Except ConnError Conn :=
  if handle < 0 then .error .invalidHandle
  else if !readable && !writable then .error .invalidCapability
  else .ok { handle := some handle, readable := readable, writable := writable }

/-- Models _ConnectionBase.close: on the first call the descriptor is
released (returned in the list) and the stored handle is nulled; a later
call finds handle = None and releases nothing. -/
def Conn.close (c : Conn) : Conn × List Int :=
  match c.handle with
  | some fd => ({ c with handle := none }, [fd])
  | none => (c, [])

/-- Models _ConnectionBase.fileno: _check_closed then return the handle. -/
def Conn.fileno (c : Conn) : Except ConnError Int :=
  match c.handle with
  | none => .error .closedHandle
  | some fd => .ok fd

/-- Models _ConnectionBase._bad_message_length: if still writable, only
disable reads; otherwise close the connection (the caller then raises
the bad-message-length error). -/
def Conn.bad_message_length (c : Conn) : Conn :=
  if c.writable then { c with readable := false } else (Conn.close c).1

/-- Big-endian 4-byte encoding of a 32-bit value, as produced by
struct.pack with the network int format on an in-range value. -/
def encInt32BE (n : Nat) : Bytes :=
  [n / 16777216 % 256, n / 65536 % 256, n / 256 % 256, n % 256]

/-- Models struct.pack of a nonnegative length with the signed 32-bit
network format used by _send_bytes: values above 2^31 - 1 do not fit a
signed 32-bit int and raise struct.error. -/
def packInt32BE (n : Nat) : Except ConnError Bytes :=
  if n ≤ 2147483647 then .ok (encInt32BE n) else .error .structError

/-- Models struct.unpack of 4 bytes with the signed 32-bit network
format used by _recv_bytes: the result is signed, so a header with the
top bit set decodes to a negative size. -/
def unpackInt32BE (b : Bytes) : Int :=
  let u : Nat :=
    b.getD 0 0 * 16777216 + b.getD 1 0 * 65536 + b.getD 2 0 * 256 + b.getD 3 0
  if u < 2147483648 then (u : Int) else (u : Int) - 4294967296

/-- Models Connection._send: os.write is retried until the whole buffer
is on the wire, so the net effect is appending the buffer to the bytes
written so far. -/
def sendLoop (wire buf : Bytes) : Bytes := wire ++ buf

/-- Models Connection._send_bytes: pack the length header; above the
16384-byte threshold the header and payload are written separately,
otherwise they are concatenated into a single write. Returns the bytes
on the wire after the call. -/
def sendBytesFramed (wire buf : Bytes) : Except ConnError Bytes := do
  let n := buf.length
  let header ← packInt32BE n
  if n > 16384 then
    .ok (sendLoop (sendLoop wire header) buf)
  else
    .ok (sendLoop wire (header ++ buf))

/-- Models Connection._recv reading size bytes from the stream: the read
loop runs only while remaining is positive; a zero-byte read (peer
closed) with nothing yet read in this call raises EOFError, and with a
partial read raises the got-end-of-file-during-message OSError. Returns
the bytes read and the rest of the stream. -/
def recvLoop (stream : Bytes) (size : Int) : Except ConnError (Bytes × Bytes) :=
  if size ≤ 0 then .ok ([], stream)
  else if size ≤ (stream.length : Int) then
    .ok (stream.take size.toNat, stream.drop size.toNat)
  else if stream = [] then .error .eofError
  else .error .truncatedMessage

/-- Models Connection._recv_bytes: read the 4-byte header, decode the
signed big-endian size; when a maxsize is given and exceeded return
none without reading the payload; otherwise read the payload. -/
def recvBytesRaw (stream : Bytes) (maxsize : Option Int) :
    Except ConnError (Option Bytes × Bytes) := do
  let (hdr, rest) ← recvLoop stream 4
  let size := unpackInt32BE hdr
  match maxsize with
  | some m =>
    if size > m then .ok (none, rest)
    else do
      let (payload, rest2) ← recvLoop rest size
      .ok (some payload, rest2)
  | none => do
    let (payload, rest2) ← recvLoop rest size
    .ok (some payload, rest2)

/-- Models _ConnectionBase.send_bytes on a byte buffer: _check_closed,
_check_writable, then the offset and size checks, then _send_bytes on
the selected slice. Returns the bytes on the wire after the call. -/
def Conn.send_bytes (c : Conn) (wire buf : Bytes) (offset : Int)
    (size : Option Int) : Except ConnError Bytes :=
  if c.handle = none then .error .closedHandle
  else if c.writable = false then .error .notWritable
  else
    let n : Int := buf.length
    if offset < 0 then .error .negativeOffset
    else if n < offset then .error .bufTooSmallForOffset
    else
      match size with
      | none => sendBytesFramed wire ((buf.drop offset.toNat).take (n - offset).toNat)
      | some s =>
        if s < 0 then .error .negativeSize
        else if offset + s > n then .error .bufTooSmallForOffsetSize
        else sendBytesFramed wire ((buf.drop offset.toNat).take s.toNat)

/-- Models _ConnectionBase.send: _check_closed, _check_writable, then
_send_bytes of the serializer's encoding of the object (the encoding is
the external serializer's output, taken here as an argument). -/
def Conn.send (c : Conn) (wire encoded : Bytes) : Except ConnError Bytes :=
  if c.handle = none then .error .closedHandle
  else if c.writable = false then .error .notWritable
  else sendBytesFramed wire encoded

/-- Models _ConnectionBase.recv_bytes: _check_closed, _check_readable,
reject a negative maxlength, then _recv_bytes; a none result (frame
longer than maxlength) triggers _bad_message_length, which degrades or
closes the connection and raises the bad-message-length error. Returns
the possibly-updated connection with the payload and remaining stream. -/
def Conn.recv_bytes (c : Conn) (stream : Bytes) (maxlength : Option Int) :
    Conn × Except ConnError (Bytes × Bytes) :=
  if c.handle = none then (c, .error .closedHandle)
  else if c.readable = false then (c, .error .notReadable)
  else if (match maxlength with | some m => decide (m < 0) | none => false) then
    (c, .error .negativeMaxlength)
  else
    match recvBytesRaw stream maxlength with
    | .error e => (c, .error e)
    | .ok (none, _) => (Conn.bad_message_length c, .error .badMessageLength)
    | .ok (some buf, rest) => (c, .ok (buf, rest))

/-- Models _ConnectionBase.recv_bytes_into for a byte buffer (itemsize
one): _check_closed, _check_readable, offset checks against the buffer
size, then _recv_bytes with no maxsize; if the buffer cannot hold the
message at the offset, BufferTooShort carries the full payload;
otherwise the payload is copied in at the offset and the byte count is
returned together with the updated buffer and remaining stream. -/
def Conn.recv_bytes_into (c : Conn) (stream buf : Bytes) (offset : Int) :
    Except ConnError (Nat × Bytes × Bytes) :=
  if c.handle = none then .error .closedHandle
  else if c.readable = false then .error .notReadable
  else
    let bytesize : Int := buf.length
    if offset < 0 then .error .negativeOffset
    else if offset > bytesize then .error .offsetTooLarge
    else
      match recvBytesRaw stream none with
      | .error e => .error e
      | .ok (none, _) => .error .badMessageLength
      | .ok (some payload, rest) =>
        let size := payload.length
        if bytesize < offset + (size : Int) then .error (.bufferTooShort payload)
        else
          .ok (size,
               buf.take offset.toNat ++ payload ++ buf.drop (offset.toNat + size),
               rest)

/-- Models _ConnectionBase.recv: _check_closed, _check_readable, then
_recv_bytes with no maxsize; decoding of the payload is the external
serializer's job, so the raw payload is returned. -/
def Conn.recv (c : Conn) (stream : Bytes) : Except ConnError (Bytes × Bytes) :=
  if c.handle = none then .error .closedHandle
  else if c.readable = false then .error .notReadable
  else
    match recvBytesRaw stream none with
    | .error e => .error e
    | .ok (none, _) => .error .badMessageLength
    | .ok (some buf, rest) => .ok (buf, rest)

/-- Models wait(object_list, timeout=0): the selector registers every
object for read readiness (registration calls fileno, so a closed
connection fails, and registering the same descriptor twice fails);
select reports the ready subset, and the keys hand back the very
objects that were registered, so the result is the sublist of the input
that is currently ready (empty when none is). Readiness of a descriptor
is the OS's report, taken here as a predicate argument. -/
def waitZero (objs : List Conn) (ready : Conn → Bool) :
    Except ConnError (List Conn) :=
  if objs.all (fun c => c.handle.isSome) = false then .error .closedHandle
  else if (objs.filterMap (fun c => c.handle)).Nodup = false then
    .error .alreadyRegistered
  else .ok (objs.filter ready)

/-- Models _ConnectionBase.poll with timeout zero: _check_closed,
_check_readable, then Connection._poll, which calls wait on the single
connection and reports whether the result is nonempty. -/
def Conn.poll (c : Conn) (ready : Conn → Bool) : Except ConnError Bool :=
  if c.handle = none then .error .closedHandle
  else if c.readable = false then .error .notReadable
  else
    match waitZero [c] ready with
    | .ok r => .ok (!r.isEmpty)
    | .error e => .error e

/-- Models Pipe: in duplex mode both connections are built from a
socketpair with default (readable and writable) flags; otherwise
os.pipe yields (read end, write end) and the first connection is built
from the read end with writable set to False, the second from the write
end with readable set to False. The raw descriptors are the OS's,
taken here as arguments (h1 the first returned by socketpair or
os.pipe, h2 the second). -/
def Pipe (duplex : Bool) (h1 h2 : Int) : Except ConnError (Conn × Conn) :=
  if duplex then do
    let c1 ← connectionInit h1 true true
    let c2 ← connectionInit h2 true true
    .ok (c1, c2)
  else do
    let c1 ← connectionInit h1 true false
    let c2 ← connectionInit h2 false true
    .ok (c1, c2)

/-- State threaded through a handshake: the connection object, the bytes
the peer has written that this side has not yet consumed, the raw bytes
this side has written, and (as a ghost log for the statements below) the
payloads of the frames this side has sent, in order. -/
structure HandshakeState where
  conn : Conn
  inp : Bytes
  sentWire : Bytes
  sentFrames : List Bytes
  deriving DecidableEq, Repr

/-- A send_bytes call inside the handshake (offset 0, no size), also
recording the payload in the ghost frame log. -/
def hsend (s : HandshakeState) (payload : Bytes) :
    Except ConnError HandshakeState :=
  match Conn.send_bytes s.conn s.sentWire payload 0 none with
  | .error e => .error e
  | .ok wire2 =>
    .ok { s with sentWire := wire2, sentFrames := s.sentFrames ++ [payload] }

/-- A recv_bytes(256) call inside the handshake; on an error the
connection state reached at the raise (possibly degraded by
_bad_message_length) is kept. -/
def hrecv (s : HandshakeState) : HandshakeState × Except ConnError Bytes :=
  match Conn.recv_bytes s.conn s.inp (some 256) with
  | (c2, .ok (payload, rest)) => ({ s with conn := c2, inp := rest }, .ok payload)
  | (c2, .error e) => ({ s with conn := c2 }, .error e)

/-- Models os.urandom(n): n bytes drawn from an entropy source, taken
here as a function argument. -/
def urandomBytes (entropy : Nat → Nat) (n : Nat) : Bytes :=
  (List.range n).map entropy

/-- Models deliver_challenge: send the challenge tag and a 20-byte
nonce, receive the reply through recv_bytes(256), compare it to the
keyed digest of the nonce; on a match send WELCOME, otherwise send
FAILURE and raise AuthenticationError. The keyed digest function (hmac
with md5) is external, taken here as the mac argument. Returns the
state at return or at the raise, with the error if one was raised. -/
def deliver_challenge (mac : Bytes → Bytes → Bytes) (entropy : Nat → Nat)
    (authkey : Bytes) (s : HandshakeState) :
    HandshakeState × Option ConnError :=
  let message := urandomBytes entropy MESSAGE_LENGTH
  match hsend s (CHALLENGE ++ message) with
  | .error e => (s, some e)
  | .ok s1 =>
    let digest := mac authkey message
    match hrecv s1 with
    | (s2, .error e) => (s2, some e)
    | (s2, .ok response) =>
      if response = digest then
        match hsend s2 WELCOME with
        | .ok s3 => (s3, none)
        | .error e => (s2, some e)
      else
        match hsend s2 FAILURE with
        | .ok s3 => (s3, some .authenticationFailed)
        | .error e => (s2, some e)

/-- Models answer_challenge: receive the challenge through
recv_bytes(256), check the challenge tag (the assert), strip it, send
the keyed digest of the remainder, receive the verdict, and raise
AuthenticationError unless it is WELCOME. -/
def answer_challenge (mac : Bytes → Bytes → Bytes) (authkey : Bytes)
    (s : HandshakeState) : HandshakeState × Option ConnError :=
  match hrecv s with
  | (s1, .error e) => (s1, some e)
  | (s1, .ok message) =>
    if message.take CHALLENGE.length ≠ CHALLENGE then (s1, some .badChallengeTag)
    else
      let rest := message.drop CHALLENGE.length
      let digest := mac authkey rest
      match hsend s1 digest with
      | .error e => (s1, some e)
      | .ok s2 =>
        match hrecv s2 with
        | (s3, .error e) => (s3, some e)
        | (s3, .ok response) =>
          if response ≠ WELCOME then (s3, some .authenticationFailed)
          else (s3, none)

/-- The handshake state accept or Client starts from: a freshly wrapped
connection, the peer's pending bytes, and nothing sent yet. -/
def initialHState (c : Conn) (inp : Bytes) : HandshakeState :=
  { conn := c, inp := inp, sentWire := [], sentFrames := [] }

/-- Models the post-accept part of Listener.accept on an already
accepted connection: the handshake runs only when the stored authkey is
truthy in Python, that is, present and nonempty; it is deliver_challenge
first, then answer_challenge. -/
def listenerAccept (mac : Bytes → Bytes → Bytes) (entropy : Nat → Nat)
    (authkey : Option Bytes) (c : Conn) (inp : Bytes) :
    HandshakeState × Option ConnError :=
  let s0 := initialHState c inp
  match authkey with
  | none => (s0, none)
  | some key =>
    if key = [] then (s0, none)
    else
      match deliver_challenge mac entropy key s0 with
      | (s1, some e) => (s1, some e)
      | (s1, none) => answer_challenge mac key s1

/-- Models the post-connect part of Client on an already connected
connection: the handshake runs whenever an authkey is supplied, even an
empty one (the test is against None, not truthiness); it is
answer_challenge first, then deliver_challenge. -/
def clientConnect (mac : Bytes → Bytes → Bytes) (entropy : Nat → Nat)
    (authkey : Option Bytes) (c : Conn) (inp : Bytes) :
    HandshakeState × Option ConnError :=
  let s0 := initialHState c inp
  match authkey with
  | none => (s0, none)
  | some key =>
    match answer_challenge mac key s0 with
    | (s1, some e) => (s1, some e)
    | (s1, none) => deliver_challenge mac entropy key s1

/-- A complete frame on the wire: 4-byte big-endian length then payload. -/
def frame (payload : Bytes) : Bytes := encInt32BE payload.length ++ payload

/-! ### Helper lemmas about the framing primitives -/

theorem encInt32BE_length (n : Nat) : (encInt32BE n).length = 4 := by
  simp [encInt32BE]

theorem unpackInt32BE_encInt32BE (n : Nat) (h : n < 2147483648) :
    unpackInt32BE (encInt32BE n) = (n : Int) := by
  have hu : n / 16777216 % 256 * 16777216 + n / 65536 % 256 * 65536 +
      n / 256 % 256 * 256 + n % 256 = n := by omega
  simp only [unpackInt32BE, encInt32BE, List.getD_cons_zero, List.getD_cons_succ]
  rw [hu]
  simp [h]

theorem except_bind_ok_eq {α β : Type} (a : α)
    (f : α → Except ConnError β) :
    (Except.ok a >>= f : Except ConnError β) = f a := rfl

theorem sendBytesFramed_ok (wire buf : Bytes) (h : buf.length ≤ 2147483647) :
    sendBytesFramed wire buf = .ok (wire ++ encInt32BE buf.length ++ buf) := by
  by_cases h16 : buf.length > 16384 <;>
    simp [sendBytesFramed, packInt32BE, h, h16, sendLoop, except_bind_ok_eq,
      List.append_assoc]

theorem recvLoop_exact (p rest : Bytes) :
    recvLoop (p ++ rest) (p.length : Int) = .ok (p, rest) := by
  rcases Nat.eq_zero_or_pos p.length with h0 | hpos
  · have : p = [] := List.length_eq_zero.mp h0
    subst this
    simp [recvLoop]
  · have h1 : ¬ ((p.length : Int) ≤ 0) := by
      simp only [not_le]
      exact_mod_cast hpos
    have h2 : (p.length : Int) ≤ ((p ++ rest).length : Int) := by
      simp [List.length_append]
    simp only [recvLoop, h1, if_false, if_pos h2, Int.toNat_natCast,
      if_neg h1]
    rw [List.take_left, List.drop_left]

theorem recvLoop_header (n : Nat) (rest : Bytes) :
    recvLoop (encInt32BE n ++ rest) 4 = .ok (encInt32BE n, rest) := by
  have h := recvLoop_exact (encInt32BE n) rest
  rwa [encInt32BE_length n] at h

theorem recvBytesRaw_none_frame (p rest : Bytes) (h : p.length ≤ 2147483647) :
    recvBytesRaw (frame p ++ rest) none = .ok (some p, rest) := by
  have hlt : p.length < 2147483648 := by omega
  simp only [frame, List.append_assoc, recvBytesRaw, recvLoop_header,
    except_bind_ok_eq, unpackInt32BE_encInt32BE p.length hlt, recvLoop_exact]

theorem recvBytesRaw_some_frame (p rest : Bytes) (m : Int)
    (h : p.length ≤ 2147483647) (hm : (p.length : Int) ≤ m) :
    recvBytesRaw (frame p ++ rest) (some m) = .ok (some p, rest) := by
  have hlt : p.length < 2147483648 := by omega
  have hns : ¬ ((p.length : Int) > m) := by omega
  simp only [frame, List.append_assoc, recvBytesRaw, recvLoop_header,
    except_bind_ok_eq, unpackInt32BE_encInt32BE p.length hlt, if_neg hns,
    recvLoop_exact]

theorem recvBytesRaw_toolong (L : Nat) (tail : Bytes) (m : Int)
    (hL : L ≤ 2147483647) (hm : m < (L : Int)) :
    recvBytesRaw (encInt32BE L ++ tail) (some m) = .ok (none, tail) := by
  have hlt : L < 2147483648 := by omega
  have hgt : (L : Int) > m := hm
  simp only [recvBytesRaw, recvLoop_header, except_bind_ok_eq,
    unpackInt32BE_encInt32BE L hlt, if_pos hgt]

/-! ### Helper lemmas about the handshake primitives -/

theorem urandomBytes_length (entropy : Nat → Nat) (n : Nat) :
    (urandomBytes entropy n).length = n := by
  simp [urandomBytes]

theorem send_bytes_open (c : Conn) (fd : Int) (wire payload : Bytes)
    (hh : c.handle = some fd) (hw : c.writable = true)
    (hlen : payload.length ≤ 2147483647) :
    Conn.send_bytes c wire payload 0 none = .ok (wire ++ frame payload) := by
  have h0 : ¬ ((payload.length : Int) < (0 : Int)) := by
    have := Int.natCast_nonneg payload.length
    omega
  simp [Conn.send_bytes, hh, hw, h0, sendBytesFramed_ok wire payload hlen,
    frame, List.append_assoc]

theorem hsend_ok (s : HandshakeState) (fd : Int) (payload : Bytes)
    (hh : s.conn.handle = some fd) (hw : s.conn.writable = true)
    (hlen : payload.length ≤ 2147483647) :
    hsend s payload =
      .ok { s with sentWire := s.sentWire ++ frame payload,
                   sentFrames := s.sentFrames ++ [payload] } := by
  simp [hsend, send_bytes_open s.conn fd s.sentWire payload hh hw hlen]

theorem recv_bytes_open_frame (c : Conn) (fd : Int) (p rest : Bytes)
    (hh : c.handle = some fd) (hr : c.readable = true)
    (hlen : p.length ≤ 256) :
    Conn.recv_bytes c (frame p ++ rest) (some 256) = (c, .ok (p, rest)) := by
  have h1 : p.length ≤ 2147483647 := by omega
  have h2 : (p.length : Int) ≤ (256 : Int) := by exact_mod_cast hlen
  simp [Conn.recv_bytes, hh, hr, recvBytesRaw_some_frame p rest 256 h1 h2]

theorem hrecv_ok (s : HandshakeState) (fd : Int) (p rest : Bytes)
    (hh : s.conn.handle = some fd) (hr : s.conn.readable = true)
    (hlen : p.length ≤ 256) (hinp : s.inp = frame p ++ rest) :
    hrecv s = ({ s with inp := rest }, .ok p) := by
  simp [hrecv, hinp, recv_bytes_open_frame s.conn fd p rest hh hr hlen]

theorem recv_bytes_open_toolong (c : Conn) (fd : Int) (L : Nat) (tail : Bytes)
    (hh : c.handle = some fd) (hr : c.readable = true)
    (hL1 : 256 < L) (hL2 : L ≤ 2147483647) :
    Conn.recv_bytes c (encInt32BE L ++ tail) (some 256) =
      (Conn.bad_message_length c, .error .badMessageLength) := by
  have hm : (256 : Int) < (L : Int) := by exact_mod_cast hL1
  simp [Conn.recv_bytes, hh, hr, recvBytesRaw_toolong L tail 256 hL2 hm]

theorem hrecv_toolong (s : HandshakeState) (fd : Int) (L : Nat) (tail : Bytes)
    (hh : s.conn.handle = some fd) (hr : s.conn.readable = true)
    (hL1 : 256 < L) (hL2 : L ≤ 2147483647)
    (hinp : s.inp = encInt32BE L ++ tail) :
    hrecv s = ({ s with conn := Conn.bad_message_length s.conn },
               .error .badMessageLength) := by
  simp [hrecv, hinp, recv_bytes_open_toolong s.conn fd L tail hh hr hL1 hL2]

theorem deliver_challenge_match (mac : Bytes → Bytes → Bytes)
    (entropy : Nat → Nat) (key : Bytes) (s : HandshakeState) (fd : Int)
    (rest : Bytes)
    (hh : s.conn.handle = some fd) (hr : s.conn.readable = true)
    (hw : s.conn.writable = true)
    (hinp : s.inp = frame (mac key (urandomBytes entropy MESSAGE_LENGTH)) ++ rest)
    (hdl : (mac key (urandomBytes entropy MESSAGE_LENGTH)).length ≤ 256) :
    deliver_challenge mac entropy key s =
      ({ s with
          inp := rest,
          sentWire := s.sentWire ++
            frame (CHALLENGE ++ urandomBytes entropy MESSAGE_LENGTH) ++
            frame WELCOME,
          sentFrames := s.sentFrames ++
            [CHALLENGE ++ urandomBytes entropy MESSAGE_LENGTH, WELCOME] },
       none) := by
  have hclen : (CHALLENGE ++ urandomBytes entropy MESSAGE_LENGTH).length ≤ 2147483647 := by
    simp [CHALLENGE, urandomBytes_length, MESSAGE_LENGTH]
  have h1 := hsend_ok s fd (CHALLENGE ++ urandomBytes entropy MESSAGE_LENGTH) hh hw hclen
  have h2 : hrecv { s with
      sentWire := s.sentWire ++ frame (CHALLENGE ++ urandomBytes entropy MESSAGE_LENGTH),
      sentFrames := s.sentFrames ++ [CHALLENGE ++ urandomBytes entropy MESSAGE_LENGTH] } =
      ({ s with
          inp := rest,
          sentWire := s.sentWire ++ frame (CHALLENGE ++ urandomBytes entropy MESSAGE_LENGTH),
          sentFrames := s.sentFrames ++ [CHALLENGE ++ urandomBytes entropy MESSAGE_LENGTH] },
       .ok (mac key (urandomBytes entropy MESSAGE_LENGTH))) := by
    exact hrecv_ok _ fd _ rest hh hr hdl hinp
  have h3 := hsend_ok { s with
      inp := rest,
      sentWire := s.sentWire ++ frame (CHALLENGE ++ urandomBytes entropy MESSAGE_LENGTH),
      sentFrames := s.sentFrames ++ [CHALLENGE ++ urandomBytes entropy MESSAGE_LENGTH] }
    fd WELCOME hh hw (by simp [WELCOME])
  simp only [deliver_challenge, h1, h2, h3]
  simp [List.append_assoc]

theorem deliver_challenge_mismatch (mac : Bytes → Bytes → Bytes)
    (entropy : Nat → Nat) (key : Bytes) (s : HandshakeState) (fd : Int)
    (resp rest : Bytes)
    (hh : s.conn.handle = some fd) (hr : s.conn.readable = true)
    (hw : s.conn.writable = true)
    (hinp : s.inp = frame resp ++ rest) (hrl : resp.length ≤ 256)
    (hne : resp ≠ mac key (urandomBytes entropy MESSAGE_LENGTH)) :
    deliver_challenge mac entropy key s =
      ({ s with
          inp := rest,
          sentWire := s.sentWire ++
            frame (CHALLENGE ++ urandomBytes entropy MESSAGE_LENGTH) ++
            frame FAILURE,
          sentFrames := s.sentFrames ++
            [CHALLENGE ++ urandomBytes entropy MESSAGE_LENGTH, FAILURE] },
       some .authenticationFailed) := by
  have hclen : (CHALLENGE ++ urandomBytes entropy MESSAGE_LENGTH).length ≤ 2147483647 := by
    simp [CHALLENGE, urandomBytes_length, MESSAGE_LENGTH]
  have h1 := hsend_ok s fd (CHALLENGE ++ urandomBytes entropy MESSAGE_LENGTH) hh hw hclen
  have h2 : hrecv { s with
      sentWire := s.sentWire ++ frame (CHALLENGE ++ urandomBytes entropy MESSAGE_LENGTH),
      sentFrames := s.sentFrames ++ [CHALLENGE ++ urandomBytes entropy MESSAGE_LENGTH] } =
      ({ s with
          inp := rest,
          sentWire := s.sentWire ++ frame (CHALLENGE ++ urandomBytes entropy MESSAGE_LENGTH),
          sentFrames := s.sentFrames ++ [CHALLENGE ++ urandomBytes entropy MESSAGE_LENGTH] },
       .ok resp) := by
    exact hrecv_ok _ fd _ rest hh hr hrl hinp
  have h3 := hsend_ok { s with
      inp := rest,
      sentWire := s.sentWire ++ frame (CHALLENGE ++ urandomBytes entropy MESSAGE_LENGTH),
      sentFrames := s.sentFrames ++ [CHALLENGE ++ urandomBytes entropy MESSAGE_LENGTH] }
    fd FAILURE hh hw (by simp [FAILURE])
  simp only [deliver_challenge, h1, h2, h3, if_neg hne]
  simp [List.append_assoc]

theorem deliver_challenge_oversize (mac : Bytes → Bytes → Bytes)
    (entropy : Nat → Nat) (key : Bytes) (s : HandshakeState) (fd : Int)
    (L : Nat) (tail : Bytes)
    (hh : s.conn.handle = some fd) (hr : s.conn.readable = true)
    (hw : s.conn.writable = true)
    (hinp : s.inp = encInt32BE L ++ tail)
    (hL1 : 256 < L) (hL2 : L ≤ 2147483647) :
    deliver_challenge mac entropy key s =
      ({ s with
          conn := Conn.bad_message_length s.conn,
          sentWire := s.sentWire ++
            frame (CHALLENGE ++ urandomBytes entropy MESSAGE_LENGTH),
          sentFrames := s.sentFrames ++
            [CHALLENGE ++ urandomBytes entropy MESSAGE_LENGTH] },
       some .badMessageLength) := by
  have hclen : (CHALLENGE ++ urandomBytes entropy MESSAGE_LENGTH).length ≤ 2147483647 := by
    simp [CHALLENGE, urandomBytes_length, MESSAGE_LENGTH]
  have h1 := hsend_ok s fd (CHALLENGE ++ urandomBytes entropy MESSAGE_LENGTH) hh hw hclen
  have h2 : hrecv { s with
      sentWire := s.sentWire ++ frame (CHALLENGE ++ urandomBytes entropy MESSAGE_LENGTH),
      sentFrames := s.sentFrames ++ [CHALLENGE ++ urandomBytes entropy MESSAGE_LENGTH] } =
      ({ s with
          conn := Conn.bad_message_length s.conn,
          sentWire := s.sentWire ++ frame (CHALLENGE ++ urandomBytes entropy MESSAGE_LENGTH),
          sentFrames := s.sentFrames ++ [CHALLENGE ++ urandomBytes entropy MESSAGE_LENGTH] },
       .error .badMessageLength) := by
    exact hrecv_toolong _ fd L tail hh hr hL1 hL2 hinp
  simp only [deliver_challenge, h1, h2]

theorem answer_challenge_welcome (mac : Bytes → Bytes → Bytes) (key : Bytes)
    (s : HandshakeState) (fd : Int) (ch rest : Bytes)
    (hh : s.conn.handle = some fd) (hr : s.conn.readable = true)
    (hw : s.conn.writable = true)
    (hinp : s.inp = frame (CHALLENGE ++ ch) ++ (frame WELCOME ++ rest))
    (hcl : (CHALLENGE ++ ch).length ≤ 256)
    (hdlen : (mac key ch).length ≤ 2147483647) :
    answer_challenge mac key s =
      ({ s with
          inp := rest,
          sentWire := s.sentWire ++ frame (mac key ch),
          sentFrames := s.sentFrames ++ [mac key ch] },
       none) := by
  have h1 : hrecv s = ({ s with inp := frame WELCOME ++ rest }, .ok (CHALLENGE ++ ch)) :=
    hrecv_ok s fd _ _ hh hr hcl hinp
  have htag : (CHALLENGE ++ ch).take CHALLENGE.length = CHALLENGE :=
    List.take_left CHALLENGE ch
  have hdrop : (CHALLENGE ++ ch).drop CHALLENGE.length = ch :=
    List.drop_left CHALLENGE ch
  have h2 := hsend_ok { s with inp := frame WELCOME ++ rest } fd (mac key ch) hh hw hdlen
  have h3 : hrecv { s with
      inp := frame WELCOME ++ rest,
      sentWire := s.sentWire ++ frame (mac key ch),
      sentFrames := s.sentFrames ++ [mac key ch] } =
      ({ s with
          inp := rest,
          sentWire := s.sentWire ++ frame (mac key ch),
          sentFrames := s.sentFrames ++ [mac key ch] },
       .ok WELCOME) := by
    exact hrecv_ok _ fd WELCOME rest hh hr (by simp [WELCOME]) rfl
  simp only [answer_challenge, h1, htag, hdrop, h2, h3]
  simp

theorem listenerAccept_success (mac : Bytes → Bytes → Bytes)
    (entropy : Nat → Nat) (key : Bytes) (c : Conn) (fd : Int)
    (ch rest : Bytes)
    (hk : key ≠ [])
    (hh : c.handle = some fd) (hr : c.readable = true) (hw : c.writable = true)
    (hdl : (mac key (urandomBytes entropy MESSAGE_LENGTH)).length ≤ 256)
    (hcl : (CHALLENGE ++ ch).length ≤ 256)
    (hdlen : (mac key ch).length ≤ 2147483647) :
    listenerAccept mac entropy (some key) c
        (frame (mac key (urandomBytes entropy MESSAGE_LENGTH)) ++
          (frame (CHALLENGE ++ ch) ++ (frame WELCOME ++ rest))) =
      ({ conn := c,
         inp := rest,
         sentWire := frame (CHALLENGE ++ urandomBytes entropy MESSAGE_LENGTH) ++
           frame WELCOME ++ frame (mac key ch),
         sentFrames := [CHALLENGE ++ urandomBytes entropy MESSAGE_LENGTH,
           WELCOME, mac key ch] },
       none) := by
  have h1 := deliver_challenge_match mac entropy key
    (initialHState c (frame (mac key (urandomBytes entropy MESSAGE_LENGTH)) ++
      (frame (CHALLENGE ++ ch) ++ (frame WELCOME ++ rest)))) fd
    (frame (CHALLENGE ++ ch) ++ (frame WELCOME ++ rest)) hh hr hw rfl hdl
  have h2 := answer_challenge_welcome mac key
    { conn := c,
      inp := frame (CHALLENGE ++ ch) ++ (frame WELCOME ++ rest),
      sentWire := [] ++ frame (CHALLENGE ++ urandomBytes entropy MESSAGE_LENGTH) ++
        frame WELCOME,
      sentFrames := [] ++ [CHALLENGE ++ urandomBytes entropy MESSAGE_LENGTH, WELCOME] }
    fd ch rest hh hr hw rfl hcl hdlen
  simp only [listenerAccept, initialHState, if_neg hk] at *
  rw [h1]
  simp only [h2]
  simp [List.append_assoc]

theorem clientConnect_success (mac : Bytes → Bytes → Bytes)
    (entropy : Nat → Nat) (key : Bytes) (c : Conn) (fd : Int)
    (ch rest : Bytes)
    (hh : c.handle = some fd) (hr : c.readable = true) (hw : c.writable = true)
    (hcl : (CHALLENGE ++ ch).length ≤ 256)
    (hdlen : (mac key ch).length ≤ 2147483647)
    (hdl : (mac key (urandomBytes entropy MESSAGE_LENGTH)).length ≤ 256) :
    clientConnect mac entropy (some key) c
        (frame (CHALLENGE ++ ch) ++
          (frame WELCOME ++
            (frame (mac key (urandomBytes entropy MESSAGE_LENGTH)) ++ rest))) =
      ({ conn := c,
         inp := rest,
         sentWire := frame (mac key ch) ++
           frame (CHALLENGE ++ urandomBytes entropy MESSAGE_LENGTH) ++
           frame WELCOME,
         sentFrames := [mac key ch,
           CHALLENGE ++ urandomBytes entropy MESSAGE_LENGTH, WELCOME] },
       none) := by
  have h1 := answer_challenge_welcome mac key
    (initialHState c (frame (CHALLENGE ++ ch) ++
      (frame WELCOME ++
        (frame (mac key (urandomBytes entropy MESSAGE_LENGTH)) ++ rest)))) fd
    ch (frame (mac key (urandomBytes entropy MESSAGE_LENGTH)) ++ rest)
    hh hr hw rfl hcl hdlen
  have h2 := deliver_challenge_match mac entropy key
    { conn := c,
      inp := frame (mac key (urandomBytes entropy MESSAGE_LENGTH)) ++ rest,
      sentWire := [] ++ frame (mac key ch),
      sentFrames := [] ++ [mac key ch] }
    fd rest hh hr hw rfl hdl
  simp only [clientConnect, initialHState] at *
  rw [h1]
  simp only [h2]
  simp [List.append_assoc]

theorem listenerAccept_authfail (mac : Bytes → Bytes → Bytes)
    (entropy : Nat → Nat) (key : Bytes) (c : Conn) (fd : Int)
    (resp rest : Bytes)
    (hk : key ≠ [])
    (hh : c.handle = some fd) (hr : c.readable = true) (hw : c.writable = true)
    (hrl : resp.length ≤ 256)
    (hne : resp ≠ mac key (urandomBytes entropy MESSAGE_LENGTH)) :
    listenerAccept mac entropy (some key) c (frame resp ++ rest) =
      ({ conn := c,
         inp := rest,
         sentWire := frame (CHALLENGE ++ urandomBytes entropy MESSAGE_LENGTH) ++
           frame FAILURE,
         sentFrames := [CHALLENGE ++ urandomBytes entropy MESSAGE_LENGTH,
           FAILURE] },
       some .authenticationFailed) := by
  have h1 := deliver_challenge_mismatch mac entropy key
    (initialHState c (frame resp ++ rest)) fd resp rest hh hr hw rfl hrl hne
  simp only [listenerAccept, initialHState, if_neg hk] at *
  rw [h1]
  simp

/-- Bind of an error in the Except monad used by the model. -/
theorem except_bind_error_eq {α β : Type} (e : ConnError)
    (f : α → Except ConnError β) :
    ((Except.error e : Except ConnError α) >>= f) = .error e := rfl

/-! ### Claim C1: framing round-trip -/

/-- C1 counterexample: the claim quantifies over every byte sequence, but
_send_bytes packs the length with the signed 32-bit struct format (the
network int format, kept for wire compatibility), so a payload of
2147483648 bytes does not fit and struct.error is raised instead of a
frame being written; the spec's 4-byte unsigned length would have
admitted it. -/
theorem framing_roundtrip_counterexample :
    sendBytesFramed [] (List.replicate 2147483648 0) = .error .structError := by
  have hpack : packInt32BE (List.replicate 2147483648 (0 : Nat)).length =
      .error .structError := by
    rw [List.length_replicate]
    simp only [packInt32BE]
    rw [if_neg (by norm_num)]
  simp only [sendBytesFramed, hpack, except_bind_error_eq]

/-- C1 (amended): for every byte sequence b whose length fits a signed
32-bit int (at most 2147483647 bytes), _send_bytes appends exactly a
4-byte big-endian length header followed by the payload to the wire (a
zero-length payload still gets its 4-byte header), and _recv_bytes with
no maxlength on that wire form returns exactly b, leaving trailing
bytes unread. -/
theorem framing_roundtrip (wire b trailing : Bytes)
    (h : b.length ≤ 2147483647) :
    sendBytesFramed wire b = .ok (wire ++ encInt32BE b.length ++ b) ∧
    (encInt32BE b.length).length = 4 ∧
    recvBytesRaw (encInt32BE b.length ++ (b ++ trailing)) none =
      .ok (some b, trailing) := by
  refine ⟨sendBytesFramed_ok wire b h, encInt32BE_length _, ?_⟩
  have h2 := recvBytesRaw_none_frame b trailing h
  simpa [frame, List.append_assoc] using h2

/-- Witness for the amended C1 at the concrete payload [7]. -/
theorem framing_roundtrip_witness :
    sendBytesFramed [] [7] = .ok ([] ++ encInt32BE ([7] : Bytes).length ++ [7]) ∧
    (encInt32BE ([7] : Bytes).length).length = 4 ∧
    recvBytesRaw (encInt32BE ([7] : Bytes).length ++ ([7] ++ [])) none =
      .ok (some [7], []) :=
  framing_roundtrip [] [7] [] (by decide)

/-! ### Claim C2: end-of-stream classification -/

/-- C2 counterexample: the peer delivered exactly the full 4-byte header
declaring payload length 1 and then closed, which the claim places in
the truncated-message class; but the payload read is a fresh _recv call
that sees zero bytes with remaining equal to size, so the code raises
EOFError, not the got-end-of-file-during-message OSError. -/
theorem eof_classification_counterexample :
    recvBytesRaw [0, 0, 0, 1] none = .error .eofError ∧
    ConnError.eofError ≠ ConnError.truncatedMessage := by
  refine ⟨by rfl, by decide⟩

/-- C2 (amended): a framed receive fails with EOFError when the peer
closed before any byte of the header arrived, and also when it closed
exactly at the header/payload boundary (full header, declared length at
least 1, no payload byte); it fails with the truncated-message OSError
when the peer closed mid-header (some but not all of the 4 header
bytes) or mid-payload after at least one payload byte; the two errors
are distinct constructors, hence distinguishable. -/
theorem eof_classification (ms : Option Int) (s : Bytes) (L1 L2 : Nat)
    (p : Bytes)
    (hs1 : 1 ≤ s.length) (hs3 : s.length ≤ 3)
    (hL1a : 1 ≤ L1) (hL1b : L1 ≤ 2147483647)
    (hp1 : 1 ≤ p.length) (hpL : p.length < L2) (hL2b : L2 ≤ 2147483647) :
    recvBytesRaw [] ms = .error .eofError ∧
    recvBytesRaw s ms = .error .truncatedMessage ∧
    recvBytesRaw (encInt32BE L1) none = .error .eofError ∧
    recvBytesRaw (encInt32BE L2 ++ p) none = .error .truncatedMessage ∧
    ConnError.eofError ≠ ConnError.truncatedMessage := by
  refine ⟨by rfl, ?_, ?_, ?_, by decide⟩
  · have h4 : ¬ ((4 : Int) ≤ (s.length : Int)) := by
      have : s.length ≤ 3 := hs3
      omega
    have hne : s ≠ [] := by
      intro h
      rw [h] at hs1
      simp at hs1
    simp [recvBytesRaw, recvLoop, h4, hne, except_bind_error_eq]
  · have hlt : L1 < 2147483648 := by omega
    have hh := recvLoop_header L1 ([] : Bytes)
    rw [List.append_nil] at hh
    have hpay : recvLoop ([] : Bytes) ((L1 : Nat) : Int) = .error .eofError := by
      have hpos : ¬ (((L1 : Nat) : Int) ≤ 0) := by
        have : 1 ≤ L1 := hL1a
        omega
      simp [recvLoop, hpos]
    simp only [recvBytesRaw, hh, except_bind_ok_eq,
      unpackInt32BE_encInt32BE L1 hlt, hpay, except_bind_error_eq]
  · have hlt : L2 < 2147483648 := by omega
    have hh := recvLoop_header L2 p
    have hpay : recvLoop p ((L2 : Nat) : Int) = .error .truncatedMessage := by
      have hpos : ¬ (((L2 : Nat) : Int) ≤ 0) := by omega
      have hlen : ¬ (((L2 : Nat) : Int) ≤ (p.length : Int)) := by
        have : p.length < L2 := hpL
        omega
      have hne : p ≠ [] := by
        intro h
        rw [h] at hp1
        simp at hp1
      simp [recvLoop, hpos, hlen, hne]
    simp only [recvBytesRaw, hh, except_bind_ok_eq,
      unpackInt32BE_encInt32BE L2 hlt, hpay, except_bind_error_eq]

/-- Witness for the amended C2 at concrete streams: one mid-header byte
pair, a bare header declaring one byte, and a header declaring two bytes
followed by a single payload byte. -/
theorem eof_classification_witness :
    recvBytesRaw [] none = .error .eofError ∧
    recvBytesRaw [9, 9] none = .error .truncatedMessage ∧
    recvBytesRaw (encInt32BE 1) none = .error .eofError ∧
    recvBytesRaw (encInt32BE 2 ++ [5]) none = .error .truncatedMessage ∧
    ConnError.eofError ≠ ConnError.truncatedMessage :=
  eof_classification none [9, 9] 1 2 [5] (by decide) (by decide) (by decide)
    (by decide) (by decide) (by decide) (by decide)

/-! ### Claim C3: degraded-length policy -/

/-- C3: recv_bytes on an open, readable connection with a nonnegative
maxlength smaller than the frame's declared length L does not yield the
payload: it raises the bad-message-length error, and _bad_message_length
degrades the connection exactly as claimed (still writable: the
readable flag goes false while the handle stays open; not writable: the
connection is closed entirely). The maxlength equal to L minus one of
the claim is the witness instance below. -/
theorem maxlength_degrade (c : Conn) (fd : Int) (L : Nat) (tail : Bytes)
    (m : Int)
    (hh : c.handle = some fd) (hr : c.readable = true)
    (hm0 : 0 ≤ m) (hmL : m < (L : Int)) (hL : L ≤ 2147483647) :
    Conn.recv_bytes c (encInt32BE L ++ tail) (some m) =
      (Conn.bad_message_length c, .error .badMessageLength) ∧
    (c.writable = true →
      Conn.bad_message_length c = { c with readable := false } ∧
      (Conn.bad_message_length c).handle = some fd) ∧
    (c.writable = false → (Conn.bad_message_length c).handle = none) := by
  refine ⟨?_, ?_, ?_⟩
  · have hneg : ¬ (m < 0) := by omega
    simp [Conn.recv_bytes, hh, hr, hneg,
      recvBytesRaw_toolong L tail m hL hmL]
  · intro hw
    constructor
    · simp [Conn.bad_message_length, hw]
    · simp [Conn.bad_message_length, hw, hh]
  · intro hw
    simp [Conn.bad_message_length, hw, Conn.close, hh]

/-- Witness for C3: a frame declaring length 1 received with maxlength 0
on a duplex connection; the readable flag drops, the handle stays. -/
theorem maxlength_degrade_witness :
    Conn.recv_bytes { handle := some 7, readable := true, writable := true }
        (encInt32BE 1 ++ [5]) (some 0) =
      (Conn.bad_message_length
        { handle := some 7, readable := true, writable := true },
       .error .badMessageLength) ∧
    ((true : Bool) = true →
      Conn.bad_message_length
          { handle := some 7, readable := true, writable := true } =
        { handle := some 7, readable := false, writable := true } ∧
      (Conn.bad_message_length
          { handle := some 7, readable := true, writable := true }).handle =
        some 7) ∧
    ((true : Bool) = false →
      (Conn.bad_message_length
          { handle := some 7, readable := true, writable := true }).handle =
        none) :=
  maxlength_degrade { handle := some 7, readable := true, writable := true }
    7 1 [5] 0 rfl rfl (by decide) (by decide) (by decide)

/-! ### Claim C4: accept after a failed handshake -/

/-- C4 counterexample: a listener with key [1] accepts a duplex
connection with handle 5; the peer's digest frame [0] is wrong, so
accept propagates AuthenticationError, but nothing in the failure path
of accept or deliver_challenge closes the connection: its handle is
still 5, not closed, at the time the error propagates. -/
theorem accept_authfail_counterexample :
    (listenerAccept (fun k m => k ++ m) (fun _ => 0) (some [1])
        { handle := some 5, readable := true, writable := true }
        (frame [0])).2 = some ConnError.authenticationFailed ∧
    (listenerAccept (fun k m => k ++ m) (fun _ => 0) (some [1])
        { handle := some 5, readable := true, writable := true }
        (frame [0])).1.conn.handle = some 5 := by
  constructor
  · rfl
  · rfl

/-- C4 (amended): when the configured key is nonempty and the digest the
peer answers with is wrong, Listener.accept propagates
AuthenticationError after sending the FAILURE marker, and the accepted
Connection is not closed by accept itself: at the time the error
propagates its handle is still the accepted descriptor (release is left
to the object's finalization, not performed on this path). -/
theorem accept_authfail_state (mac : Bytes → Bytes → Bytes)
    (entropy : Nat → Nat) (key : Bytes) (c : Conn) (fd : Int)
    (resp rest : Bytes)
    (hk : key ≠ [])
    (hh : c.handle = some fd) (hr : c.readable = true) (hw : c.writable = true)
    (hrl : resp.length ≤ 256)
    (hne : resp ≠ mac key (urandomBytes entropy MESSAGE_LENGTH)) :
    (listenerAccept mac entropy (some key) c (frame resp ++ rest)).2 =
      some ConnError.authenticationFailed ∧
    (listenerAccept mac entropy (some key) c (frame resp ++ rest)).1.conn = c ∧
    (listenerAccept mac entropy (some key) c
      (frame resp ++ rest)).1.conn.handle = some fd ∧
    (listenerAccept mac entropy (some key) c (frame resp ++ rest)).1.sentFrames =
      [CHALLENGE ++ urandomBytes entropy MESSAGE_LENGTH, FAILURE] := by
  rw [listenerAccept_authfail mac entropy key c fd resp rest hk hh hr hw hrl hne]
  exact ⟨rfl, rfl, hh, rfl⟩

/-- Witness for the amended C4 at the concrete inputs of the
counterexample scenario. -/
theorem accept_authfail_state_witness :
    (listenerAccept (fun k m => k ++ m) (fun _ => 0) (some [1])
        { handle := some 5, readable := true, writable := true }
        (frame [0] ++ [])).2 = some ConnError.authenticationFailed ∧
    (listenerAccept (fun k m => k ++ m) (fun _ => 0) (some [1])
        { handle := some 5, readable := true, writable := true }
        (frame [0] ++ [])).1.conn =
      { handle := some 5, readable := true, writable := true } ∧
    (listenerAccept (fun k m => k ++ m) (fun _ => 0) (some [1])
        { handle := some 5, readable := true, writable := true }
        (frame [0] ++ [])).1.conn.handle = some 5 ∧
    (listenerAccept (fun k m => k ++ m) (fun _ => 0) (some [1])
        { handle := some 5, readable := true, writable := true }
        (frame [0] ++ [])).1.sentFrames =
      [CHALLENGE ++ urandomBytes (fun _ => 0) MESSAGE_LENGTH, FAILURE] :=
  accept_authfail_state (fun k m => k ++ m) (fun _ => 0) [1]
    { handle := some 5, readable := true, writable := true } 5 [0] []
    (by decide) rfl rfl rfl (by decide) (by decide)

/-! ### Claim C5: handshake gating by the auth key -/

/-- C5 counterexample: a listener whose configured key is the empty byte
string performs no handshake at all on accept (the Python guard is the
truthiness of the key, and empty bytes are falsy): nothing is sent, the
inbound bytes are untouched, and accept succeeds, contradicting the
claim that every supplied key, including the empty one, mandates the
handshake on both sides. -/
theorem accept_empty_key_counterexample :
    (listenerAccept (fun k m => k ++ m) (fun _ => 0) (some [])
        { handle := some 3, readable := true, writable := true }
        (frame [9])).1.sentFrames = [] ∧
    (listenerAccept (fun k m => k ++ m) (fun _ => 0) (some [])
        { handle := some 3, readable := true, writable := true }
        (frame [9])).1.inp = frame [9] ∧
    (listenerAccept (fun k m => k ++ m) (fun _ => 0) (some [])
        { handle := some 3, readable := true, writable := true }
        (frame [9])).2 = none := by
  exact ⟨rfl, rfl, rfl⟩

/-- C5 (amended): with no key supplied neither side performs any
handshake I/O; Listener.accept runs the mutual handshake only when the
supplied key is nonempty (an empty key is treated like absence, the
truthiness guard), while Client runs it for every supplied key
including the empty byte string; when both sides do run it against a
cooperative peer, the listener sends challenge, verdict, digest and the
client sends digest, challenge, verdict before the connection is
returned. -/
theorem handshake_gating (mac : Bytes → Bytes → Bytes) (entropy : Nat → Nat)
    (c : Conn) (fd : Int) (inp : Bytes) (key key2 ch ch2 rest rest2 : Bytes)
    (hk : key ≠ [])
    (hh : c.handle = some fd) (hr : c.readable = true) (hw : c.writable = true)
    (hdl : (mac key (urandomBytes entropy MESSAGE_LENGTH)).length ≤ 256)
    (hcl : (CHALLENGE ++ ch).length ≤ 256)
    (hdlen : (mac key ch).length ≤ 2147483647)
    (hdl2 : (mac key2 (urandomBytes entropy MESSAGE_LENGTH)).length ≤ 256)
    (hcl2 : (CHALLENGE ++ ch2).length ≤ 256)
    (hdlen2 : (mac key2 ch2).length ≤ 2147483647) :
    listenerAccept mac entropy none c inp = (initialHState c inp, none) ∧
    listenerAccept mac entropy (some []) c inp = (initialHState c inp, none) ∧
    clientConnect mac entropy none c inp = (initialHState c inp, none) ∧
    (listenerAccept mac entropy (some key) c
        (frame (mac key (urandomBytes entropy MESSAGE_LENGTH)) ++
          (frame (CHALLENGE ++ ch) ++ (frame WELCOME ++ rest)))).1.sentFrames =
      [CHALLENGE ++ urandomBytes entropy MESSAGE_LENGTH, WELCOME,
       mac key ch] ∧
    (listenerAccept mac entropy (some key) c
        (frame (mac key (urandomBytes entropy MESSAGE_LENGTH)) ++
          (frame (CHALLENGE ++ ch) ++ (frame WELCOME ++ rest)))).2 = none ∧
    (clientConnect mac entropy (some key2) c
        (frame (CHALLENGE ++ ch2) ++
          (frame WELCOME ++
            (frame (mac key2 (urandomBytes entropy MESSAGE_LENGTH)) ++
              rest2)))).1.sentFrames =
      [mac key2 ch2, CHALLENGE ++ urandomBytes entropy MESSAGE_LENGTH,
       WELCOME] ∧
    (clientConnect mac entropy (some key2) c
        (frame (CHALLENGE ++ ch2) ++
          (frame WELCOME ++
            (frame (mac key2 (urandomBytes entropy MESSAGE_LENGTH)) ++
              rest2)))).2 = none := by
  refine ⟨by simp [listenerAccept], by simp [listenerAccept],
    by simp [clientConnect], ?_, ?_, ?_, ?_⟩
  · rw [listenerAccept_success mac entropy key c fd ch rest hk hh hr hw hdl
      hcl hdlen]
  · rw [listenerAccept_success mac entropy key c fd ch rest hk hh hr hw hdl
      hcl hdlen]
  · rw [clientConnect_success mac entropy key2 c fd ch2 rest2 hh hr hw hcl2
      hdlen2 hdl2]
  · rw [clientConnect_success mac entropy key2 c fd ch2 rest2 hh hr hw hcl2
      hdlen2 hdl2]

/-- Witness for the amended C5: listener key [1], client key empty, a
cooperative peer on each side. -/
theorem handshake_gating_witness :
    listenerAccept (fun k m => k ++ m) (fun _ => 0) none
        { handle := some 3, readable := true, writable := true } [9] =
      (initialHState
        { handle := some 3, readable := true, writable := true } [9], none) ∧
    listenerAccept (fun k m => k ++ m) (fun _ => 0) (some [])
        { handle := some 3, readable := true, writable := true } [9] =
      (initialHState
        { handle := some 3, readable := true, writable := true } [9], none) ∧
    clientConnect (fun k m => k ++ m) (fun _ => 0) none
        { handle := some 3, readable := true, writable := true } [9] =
      (initialHState
        { handle := some 3, readable := true, writable := true } [9], none) ∧
    (listenerAccept (fun k m => k ++ m) (fun _ => 0) (some [1])
        { handle := some 3, readable := true, writable := true }
        (frame ((fun (k m : Bytes) => k ++ m) [1]
            (urandomBytes (fun _ => 0) MESSAGE_LENGTH)) ++
          (frame (CHALLENGE ++ [2]) ++ (frame WELCOME ++ [8])))).1.sentFrames =
      [CHALLENGE ++ urandomBytes (fun _ => 0) MESSAGE_LENGTH, WELCOME,
       (fun (k m : Bytes) => k ++ m) [1] [2]] ∧
    (listenerAccept (fun k m => k ++ m) (fun _ => 0) (some [1])
        { handle := some 3, readable := true, writable := true }
        (frame ((fun (k m : Bytes) => k ++ m) [1]
            (urandomBytes (fun _ => 0) MESSAGE_LENGTH)) ++
          (frame (CHALLENGE ++ [2]) ++ (frame WELCOME ++ [8])))).2 = none ∧
    (clientConnect (fun k m => k ++ m) (fun _ => 0) (some [])
        { handle := some 3, readable := true, writable := true }
        (frame (CHALLENGE ++ [4]) ++
          (frame WELCOME ++
            (frame ((fun (k m : Bytes) => k ++ m) []
                (urandomBytes (fun _ => 0) MESSAGE_LENGTH)) ++
              [6])))).1.sentFrames =
      [(fun (k m : Bytes) => k ++ m) [] [4],
       CHALLENGE ++ urandomBytes (fun _ => 0) MESSAGE_LENGTH, WELCOME] ∧
    (clientConnect (fun k m => k ++ m) (fun _ => 0) (some [])
        { handle := some 3, readable := true, writable := true }
        (frame (CHALLENGE ++ [4]) ++
          (frame WELCOME ++
            (frame ((fun (k m : Bytes) => k ++ m) []
                (urandomBytes (fun _ => 0) MESSAGE_LENGTH)) ++
              [6])))).2 = none :=
  handshake_gating (fun k m => k ++ m) (fun _ => 0)
    { handle := some 3, readable := true, writable := true } 3 [9]
    [1] [] [2] [4] [8] [6]
    (by decide) rfl rfl rfl (by decide) (by decide) (by decide) (by decide)
    (by decide) (by decide)

/-! ### Claim C6: the challenge-response protocol -/

/-- C6: the challenger sends the challenge tag followed by the 20-byte
nonce as its first frame; a reply whose declared length exceeds 256 is
rejected (bad message length, no verdict frame is sent); a reply equal
to MAC(key, nonce) gets the WELCOME marker and success; any other reply
gets the FAILURE marker and AuthenticationError; and the two sides run
the protocol in mirrored order: accept with a configured key sends its
challenge first and answers second, Client answers first (its first
frame is the digest of the listener's challenge) and challenges
second. -/
theorem challenge_protocol (mac : Bytes → Bytes → Bytes) (entropy : Nat → Nat)
    (c : Conn) (fd : Int) (key resp ch rest r1 r2 r3 : Bytes) (L : Nat)
    (hk : key ≠ [])
    (hh : c.handle = some fd) (hr : c.readable = true) (hw : c.writable = true)
    (hdl : (mac key (urandomBytes entropy MESSAGE_LENGTH)).length ≤ 256)
    (hrl : resp.length ≤ 256)
    (hne : resp ≠ mac key (urandomBytes entropy MESSAGE_LENGTH))
    (hL1 : 256 < L) (hL2 : L ≤ 2147483647)
    (hcl : (CHALLENGE ++ ch).length ≤ 256)
    (hdlen : (mac key ch).length ≤ 2147483647) :
    (urandomBytes entropy MESSAGE_LENGTH).length = 20 ∧
    deliver_challenge mac entropy key
        (initialHState c (frame (mac key (urandomBytes entropy MESSAGE_LENGTH)) ++ r1)) =
      ({ conn := c, inp := r1,
         sentWire := frame (CHALLENGE ++ urandomBytes entropy MESSAGE_LENGTH) ++
           frame WELCOME,
         sentFrames := [CHALLENGE ++ urandomBytes entropy MESSAGE_LENGTH,
           WELCOME] }, none) ∧
    deliver_challenge mac entropy key (initialHState c (frame resp ++ r2)) =
      ({ conn := c, inp := r2,
         sentWire := frame (CHALLENGE ++ urandomBytes entropy MESSAGE_LENGTH) ++
           frame FAILURE,
         sentFrames := [CHALLENGE ++ urandomBytes entropy MESSAGE_LENGTH,
           FAILURE] }, some ConnError.authenticationFailed) ∧
    deliver_challenge mac entropy key (initialHState c (encInt32BE L ++ r3)) =
      ({ conn := Conn.bad_message_length c,
         inp := encInt32BE L ++ r3,
         sentWire := frame (CHALLENGE ++ urandomBytes entropy MESSAGE_LENGTH),
         sentFrames := [CHALLENGE ++ urandomBytes entropy MESSAGE_LENGTH] },
       some ConnError.badMessageLength) ∧
    (listenerAccept mac entropy (some key) c
        (frame (mac key (urandomBytes entropy MESSAGE_LENGTH)) ++
          (frame (CHALLENGE ++ ch) ++ (frame WELCOME ++ rest)))).1.sentFrames =
      [CHALLENGE ++ urandomBytes entropy MESSAGE_LENGTH, WELCOME,
       mac key ch] ∧
    (clientConnect mac entropy (some key) c
        (frame (CHALLENGE ++ ch) ++
          (frame WELCOME ++
            (frame (mac key (urandomBytes entropy MESSAGE_LENGTH)) ++
              rest)))).1.sentFrames =
      [mac key ch, CHALLENGE ++ urandomBytes entropy MESSAGE_LENGTH,
       WELCOME] := by
  refine ⟨by simp [urandomBytes_length, MESSAGE_LENGTH], ?_, ?_, ?_, ?_, ?_⟩
  · rw [deliver_challenge_match mac entropy key _ fd r1 hh hr hw rfl hdl]
    simp [initialHState]
  · rw [deliver_challenge_mismatch mac entropy key _ fd resp r2 hh hr hw rfl
      hrl hne]
    simp [initialHState]
  · rw [deliver_challenge_oversize mac entropy key _ fd L r3 hh hr hw rfl
      hL1 hL2]
    simp [initialHState]
  · rw [listenerAccept_success mac entropy key c fd ch rest hk hh hr hw hdl
      hcl hdlen]
  · rw [clientConnect_success mac entropy key c fd ch rest hh hr hw hcl
      hdlen hdl]

/-- Witness for C6 with mac the concatenation function, key [1], a wrong
reply [0], and an oversize declared length 300. -/
theorem challenge_protocol_witness :
    (urandomBytes (fun _ => 0) MESSAGE_LENGTH).length = 20 ∧
    deliver_challenge (fun k m => k ++ m) (fun _ => 0) [1]
        (initialHState { handle := some 5, readable := true, writable := true }
          (frame ((fun (k m : Bytes) => k ++ m) [1]
            (urandomBytes (fun _ => 0) MESSAGE_LENGTH)) ++ [1])) =
      ({ conn := { handle := some 5, readable := true, writable := true },
         inp := [1],
         sentWire := frame (CHALLENGE ++ urandomBytes (fun _ => 0) MESSAGE_LENGTH) ++
           frame WELCOME,
         sentFrames := [CHALLENGE ++ urandomBytes (fun _ => 0) MESSAGE_LENGTH,
           WELCOME] }, none) ∧
    deliver_challenge (fun k m => k ++ m) (fun _ => 0) [1]
        (initialHState { handle := some 5, readable := true, writable := true }
          (frame [0] ++ [2])) =
      ({ conn := { handle := some 5, readable := true, writable := true },
         inp := [2],
         sentWire := frame (CHALLENGE ++ urandomBytes (fun _ => 0) MESSAGE_LENGTH) ++
           frame FAILURE,
         sentFrames := [CHALLENGE ++ urandomBytes (fun _ => 0) MESSAGE_LENGTH,
           FAILURE] }, some ConnError.authenticationFailed) ∧
    deliver_challenge (fun k m => k ++ m) (fun _ => 0) [1]
        (initialHState { handle := some 5, readable := true, writable := true }
          (encInt32BE 300 ++ [3])) =
      ({ conn := Conn.bad_message_length
           { handle := some 5, readable := true, writable := true },
         inp := encInt32BE 300 ++ [3],
         sentWire := frame (CHALLENGE ++ urandomBytes (fun _ => 0) MESSAGE_LENGTH),
         sentFrames := [CHALLENGE ++ urandomBytes (fun _ => 0) MESSAGE_LENGTH] },
       some ConnError.badMessageLength) ∧
    (listenerAccept (fun k m => k ++ m) (fun _ => 0) (some [1])
        { handle := some 5, readable := true, writable := true }
        (frame ((fun (k m : Bytes) => k ++ m) [1]
            (urandomBytes (fun _ => 0) MESSAGE_LENGTH)) ++
          (frame (CHALLENGE ++ [2]) ++ (frame WELCOME ++ [4])))).1.sentFrames =
      [CHALLENGE ++ urandomBytes (fun _ => 0) MESSAGE_LENGTH, WELCOME,
       (fun (k m : Bytes) => k ++ m) [1] [2]] ∧
    (clientConnect (fun k m => k ++ m) (fun _ => 0) (some [1])
        { handle := some 5, readable := true, writable := true }
        (frame (CHALLENGE ++ [2]) ++
          (frame WELCOME ++
            (frame ((fun (k m : Bytes) => k ++ m) [1]
                (urandomBytes (fun _ => 0) MESSAGE_LENGTH)) ++
              [4])))).1.sentFrames =
      [(fun (k m : Bytes) => k ++ m) [1] [2],
       CHALLENGE ++ urandomBytes (fun _ => 0) MESSAGE_LENGTH, WELCOME] :=
  challenge_protocol (fun k m => k ++ m) (fun _ => 0)
    { handle := some 5, readable := true, writable := true } 5
    [1] [0] [2] [4] [1] [2] [3] 300
    (by decide) rfl rfl rfl (by decide) (by decide) (by decide) (by decide)
    (by decide) (by decide) (by decide)

/-! ### Claim C7: Pipe with duplex false -/

/-- C7 counterexample: os.pipe returns (read end, write end) and Pipe
wraps the first descriptor with writable False and the second with
readable False, so the first returned connection is read-only and the
second write-only, the reverse of the claim's assignment. -/
theorem pipe_nonduplex_counterexample :
    Pipe false 3 4 =
      .ok ({ handle := some 3, readable := true, writable := false },
           { handle := some 4, readable := false, writable := true }) ∧
    ({ handle := some 3, readable := true, writable := false } : Conn).readable
      = true := by
  exact ⟨rfl, rfl⟩

/-- C7 (amended): Pipe with duplex false over the pair of descriptors
returned by os.pipe yields first the read-only connection built on the
channel's read end and second the write-only connection built on its
write end. -/
theorem pipe_nonduplex_ends (h1 h2 : Int) (hh1 : 0 ≤ h1) (hh2 : 0 ≤ h2) :
    Pipe false h1 h2 =
      .ok ({ handle := some h1, readable := true, writable := false },
           { handle := some h2, readable := false, writable := true }) := by
  have n1 : ¬ (h1 < 0) := by omega
  have n2 : ¬ (h2 < 0) := by omega
  simp [Pipe, connectionInit, n1, n2, except_bind_ok_eq]

/-- Witness for the amended C7 at descriptors 3 and 4. -/
theorem pipe_nonduplex_ends_witness :
    Pipe false 3 4 =
      .ok ({ handle := some 3, readable := true, writable := false },
           { handle := some 4, readable := false, writable := true }) :=
  pipe_nonduplex_ends 3 4 (by decide) (by decide)

/-! ### Claim C8: recv_bytes_into -/

/-- C8: on an open readable connection, receiving a framed message into
a byte buffer at a nonnegative offset within the buffer either raises
BufferTooShort carrying the complete payload (when the capacity in
bytes is less than offset plus the message size) or writes the full
payload at the offset and returns the message's byte count (when the
capacity at that offset is exact or greater). -/
theorem recv_into_spec (c : Conn) (fd : Int) (payload buf rest : Bytes)
    (offset : Int)
    (hh : c.handle = some fd) (hr : c.readable = true)
    (hlen : payload.length ≤ 2147483647)
    (ho0 : 0 ≤ offset) (hob : offset ≤ (buf.length : Int)) :
    ((buf.length : Int) < offset + (payload.length : Int) →
      Conn.recv_bytes_into c (frame payload ++ rest) buf offset =
        .error (.bufferTooShort payload)) ∧
    (offset + (payload.length : Int) ≤ (buf.length : Int) →
      Conn.recv_bytes_into c (frame payload ++ rest) buf offset =
        .ok (payload.length,
             buf.take offset.toNat ++ payload ++
               buf.drop (offset.toNat + payload.length),
             rest)) := by
  have hno : ¬ (offset < 0) := by omega
  have hnb : ¬ (offset > (buf.length : Int)) := by omega
  constructor
  · intro hcap
    simp [Conn.recv_bytes_into, hh, hr, hno, hnb,
      recvBytesRaw_none_frame payload rest hlen, hcap]
  · intro hcap
    have hfits : ¬ ((buf.length : Int) < offset + (payload.length : Int)) := by
      omega
    simp [Conn.recv_bytes_into, hh, hr, hno, hnb,
      recvBytesRaw_none_frame payload rest hlen, hfits]

/-- Witness for C8: payload [5, 6] into a 3-byte buffer at offset 1
(exact fit), on connection handle 1. -/
theorem recv_into_spec_witness :
    ((([0, 0, 0] : Bytes).length : Int) < 1 + (([5, 6] : Bytes).length : Int) →
      Conn.recv_bytes_into { handle := some 1, readable := true, writable := true }
          (frame [5, 6] ++ [9]) [0, 0, 0] 1 =
        .error (.bufferTooShort [5, 6])) ∧
    (1 + (([5, 6] : Bytes).length : Int) ≤ (([0, 0, 0] : Bytes).length : Int) →
      Conn.recv_bytes_into { handle := some 1, readable := true, writable := true }
          (frame [5, 6] ++ [9]) [0, 0, 0] 1 =
        .ok (([5, 6] : Bytes).length,
             ([0, 0, 0] : Bytes).take (Int.toNat 1) ++ [5, 6] ++
               ([0, 0, 0] : Bytes).drop (Int.toNat 1 + ([5, 6] : Bytes).length),
             [9])) :=
  recv_into_spec { handle := some 1, readable := true, writable := true } 1
    [5, 6] [0, 0, 0] [9] 1 rfl rfl (by decide) (by decide) (by decide)

/-! ### Claim C9: wait with timeout zero -/

/-- C9: wait over a set of open connections with timeout zero returns
exactly the currently ready subset of the input, the empty list when
none is ready and in particular on the empty input; the result is a
filtering of the very connection objects passed in, so every returned
element is an element of the input that is ready and every ready input
element is returned. -/
theorem wait_zero_ready (objs : List Conn) (ready : Conn → Bool)
    (hopen : objs.all (fun c => c.handle.isSome) = true)
    (hnd : (objs.filterMap (fun c => c.handle)).Nodup) :
    waitZero [] ready = .ok [] ∧
    waitZero objs ready = .ok (objs.filter ready) ∧
    (∀ c, c ∈ objs.filter ready ↔ c ∈ objs ∧ ready c = true) := by
  refine ⟨by simp [waitZero], ?_, ?_⟩
  · simp [waitZero, hopen, hnd]
  · intro c
    simp [List.mem_filter]

/-- Witness for C9: two open connections of which only the second is
ready. -/
theorem wait_zero_ready_witness :
    waitZero [] (fun c => c.handle = some 2) = .ok [] ∧
    waitZero [{ handle := some 1, readable := true, writable := true },
              { handle := some 2, readable := true, writable := true }]
        (fun c => c.handle = some 2) =
      .ok ([{ handle := some 1, readable := true, writable := true },
            { handle := some 2, readable := true, writable := true }].filter
        (fun c => c.handle = some 2)) ∧
    (∀ c, c ∈ [{ handle := some 1, readable := true, writable := true },
               { handle := some 2, readable := true, writable := true }].filter
          (fun c => c.handle = some 2) ↔
        c ∈ [({ handle := some 1, readable := true, writable := true } : Conn),
             { handle := some 2, readable := true, writable := true }] ∧
        (c.handle = some 2 : Bool) = true) :=
  wait_zero_ready
    [{ handle := some 1, readable := true, writable := true },
     { handle := some 2, readable := true, writable := true }]
    (fun c => c.handle = some 2) (by decide) (by decide)

/-! ### Claim C10: closed-state invariant -/

/-- C10: after close, the stored handle is nulled, so a second close
finds nothing and releases nothing (idempotent, at most one release in
total), and every public operation of the connection (send, recv,
send_bytes, recv_bytes, recv_bytes_into, poll, fileno) fails with the
handle-is-closed error, whatever its other arguments. -/
theorem closed_state_invariant (c : Conn) (wire stream buf encoded : Bytes)
    (ml offset : Int) (sz : Option Int) (ready : Conn → Bool) :
    ((Conn.close c).1).handle = none ∧
    Conn.close ((Conn.close c).1) = ((Conn.close c).1, []) ∧
    ((Conn.close c).2).length ≤ 1 ∧
    ((Conn.close c).2 ++ (Conn.close ((Conn.close c).1)).2).length ≤ 1 ∧
    Conn.fileno ((Conn.close c).1) = .error .closedHandle ∧
    Conn.send ((Conn.close c).1) wire encoded = .error .closedHandle ∧
    Conn.recv ((Conn.close c).1) stream = .error .closedHandle ∧
    Conn.send_bytes ((Conn.close c).1) wire buf offset sz =
      .error .closedHandle ∧
    Conn.recv_bytes ((Conn.close c).1) stream (some ml) =
      ((Conn.close c).1, .error .closedHandle) ∧
    Conn.recv_bytes_into ((Conn.close c).1) stream buf offset =
      .error .closedHandle ∧
    Conn.poll ((Conn.close c).1) ready = .error .closedHandle := by
  rcases c with ⟨h, r, w⟩
  cases h <;>
    simp [Conn.close, Conn.fileno, Conn.send, Conn.recv, Conn.send_bytes,
      Conn.recv_bytes, Conn.recv_bytes_into, Conn.poll]
